import Mathlib

/-!
Verification of the temporal-interpolation and coordinate-encoding engine of
`adjust-exif.py` (geotagging photos from GPX tracks).

Shallow embedding conventions:
* A `datetime` is modelled as an integer count of whole seconds since an
  arbitrary epoch (the program compares, subtracts and reads H/M/S fields of
  timezone-aware datetimes; whole-second resolution matches the data the
  program actually handles).
* Python `float` coordinate arithmetic is idealised as `ℚ`.
* A Python `timedelta`'s `.seconds` attribute is the total-second count
  modulo 86400 (Python normalises a timedelta to days/seconds/microseconds
  with `0 ≤ seconds < 86400`).
* Fallible code returns `Except Exc _`, where `Exc` is the Python exception
  class raised; the orchestration's `except RuntimeError` handler catches
  exactly `Exc.runtimeError`.
-/

/-- Python exception classes that the modelled code can raise.  Only
`runtimeError` is caught by the `except RuntimeError` handler in
`adjust_main`. -/
inductive Exc where
  | assertionError
  | zeroDivisionError
  | typeError
  | runtimeError
  | valueError
  | keyError
deriving DecidableEq, Repr

deriving instance DecidableEq for Except

/-- Model of `gpxpy.gpx.GPXTrackPoint` restricted to the fields the program
reads or writes (constructor-argument order follows the call in
`interpolate`).  `elevation` is `none` when the GPX point has no elevation. -/
structure GPXTrackPoint where
  latitude : ℚ
  longitude : ℚ
  elevation : Option ℚ
  time : ℤ
  symbol : Option String
  comment : Option String
  horizontal_dilution : Option ℚ
  vertical_dilution : Option ℚ
  position_dilution : Option ℚ
  speed : Option ℚ
  name : Option String
deriving DecidableEq, Repr

/-- The `.seconds` attribute of a Python `timedelta` whose total length is
`d` whole seconds: Python normalises a timedelta to (days, seconds,
microseconds) with `0 ≤ seconds < 86400`, so the `.seconds` attribute is
`d mod 86400` (Python's floor-sign modulo, which Lean's `Int` `%` =
`Int.emod` matches). -/
def tdSeconds (d : ℤ) : ℤ := d % 86400

/-- The ratio computed on line 106 of the source:
`1.0 * (dt - before.time).seconds / (after.time - before.time).seconds`. -/
def lerpFrac (before after : GPXTrackPoint) (dt : ℤ) : ℚ :=
  (tdSeconds (dt - before.time) : ℚ) / (tdSeconds (after.time - before.time) : ℚ)

/-- `interpolate(before, after, dt)` from the source, lines 72-124.
Order of effects follows the Python: the `assert` first, then the
`before == after` early return, then the ratio (ZeroDivisionError when the
`.seconds` denominator is zero), then construction of the new point, during
which `after.elevation - before.elevation` raises a TypeError when
`before.elevation` is truthy but `after.elevation` is `None`. -/
def interpolate (before after : GPXTrackPoint) (dt : ℤ) : Except Exc GPXTrackPoint :=
  if ¬ (before.time ≤ dt ∧ dt ≤ after.time) then Except.error Exc.assertionError
  else if before = after then Except.ok before
  else if tdSeconds (after.time - before.time) = 0 then Except.error Exc.zeroDivisionError
  else
    let frac := lerpFrac before after dt
    let mk := fun (el : Option ℚ) =>
      ({ latitude := before.latitude + frac * (after.latitude - before.latitude)
         longitude := before.longitude + frac * (after.longitude - before.longitude)
         elevation := el
         time := dt
         symbol := before.symbol
         comment := before.comment
         horizontal_dilution := before.horizontal_dilution
         vertical_dilution := before.vertical_dilution
         position_dilution := before.position_dilution
         speed := before.speed
         name := before.name } : GPXTrackPoint)
    match before.elevation with
    | none => Except.ok (mk none)
    | some be =>
      if be = 0 then Except.ok (mk none)
      else
        match after.elevation with
        | none => Except.error Exc.typeError
        | some ae => Except.ok (mk (some (be + frac * (ae - be))))

/-- `gpx_to_exif(c)` from the source, lines 45-69.  `int` truncation of a
non-negative float is `Int.floor`; `math.ceil` is `Int.ceil`; `a / c` raises
ZeroDivisionError when `c = 0` (Python float `0.0 / 0.0` raises). -/
def gpx_to_exif (c : ℚ) : Except Exc (ℚ × ℚ × ℚ) :=
  if c = 0 then Except.error Exc.zeroDivisionError
  else
    let a := |c|
    let h : ℤ := ⌊a⌋
    let m : ℤ := ⌊60 * (a - (h : ℚ))⌋
    let s : ℤ := ⌈3600 * (a - ((h : ℚ) + (m : ℚ) / 60))⌉
    Except.ok ((a / c) * (h : ℚ), (m : ℚ), (s : ℚ))

/-- The latitude-hemisphere expression of line 148:
`"N" if point.latitude > 0 else "S"`. -/
def gps_latitude_ref (lat : ℚ) : String := if lat > 0 then "N" else "S"

/-- The longitude-hemisphere expression of line 150:
`"E" if point.longitude > 0 else "W"`. -/
def gps_longitude_ref (lon : ℚ) : String := if lon > 0 then "E" else "W"

/-- The altitude-reference expression of line 152:
`0 if point.elevation > 0 else -1`.  When `point.elevation` is `None`,
Python 3 raises a TypeError on `None > 0`. -/
def gps_altitude_ref (elevation : Option ℚ) : Except Exc ℤ :=
  match elevation with
  | none => Except.error Exc.typeError
  | some e => Except.ok (if e > 0 then 0 else -1)

/-- Values handed to `img.set`. `pynone` models Python's `None`. -/
inductive ExifVal where
  | intVal (n : ℤ)
  | strVal (s : String)
  | tripleVal (t : ℚ × ℚ × ℚ)
  | numVal (q : ℚ)
  | pynone
deriving DecidableEq, Repr

/-- The external metadata writer (`exif.Image.set`): for each (tag, value)
pair it either succeeds (`none`) or raises an exception of some class
(`some e`).  The writer is an external collaborator, so its failure
behaviour is a parameter of the model. -/
abbrev ExifWriter := String → ExifVal → Option Exc

/-- Result record of `datetime_to_exif` (the `GPSDateTime` dataclass). -/
structure GPSDateTime where
  timestamp : ℚ × ℚ × ℚ
  datestamp : String
deriving DecidableEq, Repr

/-- Civil date (year, month, day) of a day count relative to 1970-01-01 in
the proleptic Gregorian calendar (the calendar Python `datetime` uses). -/
def civilFromDays (z0 : ℤ) : ℤ × ℤ × ℤ :=
  let z := z0 + 719468
  let era := z.fdiv 146097
  let doe := z - era * 146097
  let yoe := (doe - doe.fdiv 1460 + doe.fdiv 36524 - doe.fdiv 146096).fdiv 365
  let y := yoe + era * 400
  let doy := doe - (365 * yoe + yoe.fdiv 4 - yoe.fdiv 100)
  let mp := (5 * doy + 2).fdiv 153
  let d := doy - (153 * mp + 2).fdiv 5 + 1
  let m := mp + (if mp < 10 then 3 else -9)
  (y + (if m ≤ 2 then 1 else 0), m, d)

/-- Zero-padded two-digit rendering, as Python's `{n:02d}` for `0 ≤ n < 100`. -/
def pad2 (n : ℤ) : String := if 0 ≤ n ∧ n < 10 then "0" ++ toString n else toString n

/-- `datetime_to_exif(dt, tz_adjust)` from the source, lines 28-42, over the
epoch-second model: the H/M/S fields of the datetime, with `tz_adjust` added
to the hour only, and the date string `YYYY:MM:DD` of the unadjusted date. -/
def datetime_to_exif (t : ℤ) (tz_adjust : ℤ) : GPSDateTime :=
  let hour := (t.fdiv 3600) % 24
  let minute := (t.fdiv 60) % 60
  let second := t % 60
  let ymd := civilFromDays (t.fdiv 86400)
  { timestamp := (((hour + tz_adjust : ℤ) : ℚ), ((minute : ℤ) : ℚ), ((second : ℤ) : ℚ))
    datestamp := toString ymd.1 ++ ":" ++ pad2 ymd.2.1 ++ ":" ++ pad2 ymd.2.2 }

/-- One `img.set(tag, v)` call: the external writer either raises or records
the attribute. -/
def imgSet (wr : ExifWriter) (attrs : List (String × ExifVal)) (tag : String)
    (v : ExifVal) : Except Exc (List (String × ExifVal)) :=
  match wr tag v with
  | some e => Except.error e
  | none => Except.ok (attrs ++ [(tag, v)])

/-- `adjust_image(img, point)` from the source, lines 127-156: the sequence
of `img.set` calls in source order, evaluating each value argument (which
itself can raise) before the call.  Returns the recorded attributes. -/
def adjust_image (wr : ExifWriter) (point : GPXTrackPoint) :
    Except Exc (List (String × ExifVal)) :=
  match imgSet wr [] "gps_version_id" (ExifVal.intVal 2) with
  | Except.error e => Except.error e
  | Except.ok a1 =>
  match imgSet wr a1 "gps_latitude_ref" (ExifVal.strVal (gps_latitude_ref point.latitude)) with
  | Except.error e => Except.error e
  | Except.ok a2 =>
  match gpx_to_exif point.latitude with
  | Except.error e => Except.error e
  | Except.ok latT =>
  match imgSet wr a2 "gps_latitude" (ExifVal.tripleVal latT) with
  | Except.error e => Except.error e
  | Except.ok a3 =>
  match imgSet wr a3 "gps_longitude_ref" (ExifVal.strVal (gps_longitude_ref point.longitude)) with
  | Except.error e => Except.error e
  | Except.ok a4 =>
  match gpx_to_exif point.longitude with
  | Except.error e => Except.error e
  | Except.ok lonT =>
  match imgSet wr a4 "gps_longitude" (ExifVal.tripleVal lonT) with
  | Except.error e => Except.error e
  | Except.ok a5 =>
  match gps_altitude_ref point.elevation with
  | Except.error e => Except.error e
  | Except.ok altRef =>
  match imgSet wr a5 "gps_altitude_ref" (ExifVal.intVal altRef) with
  | Except.error e => Except.error e
  | Except.ok a6 =>
  match imgSet wr a6 "gps_altitude"
      (match point.elevation with
       | some e => ExifVal.numVal e
       | none => ExifVal.pynone) with
  | Except.error e => Except.error e
  | Except.ok a7 =>
  match imgSet wr a7 "gps_timestamp"
      (ExifVal.tripleVal (datetime_to_exif point.time 0).timestamp) with
  | Except.error e => Except.error e
  | Except.ok a8 =>
  imgSet wr a8 "gps_datestamp" (ExifVal.strVal (datetime_to_exif point.time 0).datestamp)

/-- The bracketing scan of `adjust_main`, lines 212-219:
`for u in used_dts: if u <= exif_dt: before = u; if u >= exif_dt: after = u; break`.
The accumulator is the current `before` candidate. -/
def bracketLoop (q : ℤ) : List ℤ → Option ℤ → Option ℤ × Option ℤ
  | [], before => (before, none)
  | u :: us, before =>
    let b := if u ≤ q then some u else before
    if q ≤ u then (b, some u) else bracketLoop q us b

/-- The bracket operation: scan `used_dts` (in the list order the program
actually iterates, i.e. insertion order — the `sorted(used_dts)` on line 187
discards its result) starting with no `before` candidate. -/
def bracket (used_dts : List ℤ) (q : ℤ) : Option ℤ × Option ℤ :=
  bracketLoop q used_dts none

/-- `lastSampleAtOrBefore` as the spec words it: the chronologically latest
indexed timestamp that is `≤ q`. -/
def lastSampleAtOrBefore (used_dts : List ℤ) (q : ℤ) : Option ℤ :=
  (used_dts.filter (fun u => u ≤ q)).max?

/-- `firstSampleAtOrAfter` as the spec words it: the chronologically earliest
indexed timestamp that is `≥ q`. -/
def firstSampleAtOrAfter (used_dts : List ℤ) (q : ℤ) : Option ℤ :=
  (used_dts.filter (fun u => q ≤ u)).min?

/-- The index build of `adjust_main`, lines 170-180:
`gpx_points[point.time] = (point, gpx_file)` for each point in input order;
a later insertion with an equal timestamp silently overwrites.  Modelled as
the resulting lookup function (the originating file is irrelevant here). -/
def buildIndex (pts : List GPXTrackPoint) : ℤ → Option GPXTrackPoint :=
  pts.foldl (fun idx p => fun t => if t = p.time then some p else idx t) (fun _ => none)

/-- The `used_dts` list of `adjust_main`: every point's timestamp, appended
in input order (duplicates kept). -/
def usedDts (pts : List GPXTrackPoint) : List ℤ :=
  pts.map GPXTrackPoint.time

/-- Convenience constructor for a track point whose passthrough descriptive
fields are all absent (as for a plain GPX `<trkpt>` with no extensions). -/
def mkPt (la lo : ℚ) (el : Option ℚ) (t : ℤ) : GPXTrackPoint :=
  ⟨la, lo, el, t, none, none, none, none, none, none, none⟩

/-- Sample at t = 0, position (10, 10), no elevation. -/
def pA : GPXTrackPoint := mkPt 10 10 none 0

/-- Sample at t = 10 s, position (11, 11), no elevation. -/
def pB : GPXTrackPoint := mkPt 11 11 none 10

/-- Sample 24 h 10 s after `pA`, position (11, 11). -/
def pDayAfter : GPXTrackPoint := mkPt 11 11 none 86410

/-- Sample exactly 48 h after `pA`, position (11, 11). -/
def pGapAfter : GPXTrackPoint := mkPt 11 11 none 172800

/-- Sample at t = 0 with elevation 100 m. -/
def pE1 : GPXTrackPoint := mkPt 10 10 (some 100) 0

/-- Sample at t = 10 s with elevation 200 m. -/
def pE2 : GPXTrackPoint := mkPt 11 11 (some 200) 10

/-- A metadata writer whose every `set` succeeds. -/
def wrOk : ExifWriter := fun _ _ => none

/-- A metadata writer that rejects every `set` with a `RuntimeError`. -/
def wrRuntime : ExifWriter := fun _ _ => some Exc.runtimeError

/-- A metadata writer that rejects every `set` with a `ValueError`. -/
def wrValue : ExifWriter := fun _ _ => some Exc.valueError

/-- Outcome of processing one photo in `adjust_main`, lines 189-238. -/
inductive PhotoOutcome where
  /-- `before is None or after is None`: logged and `continue`d (line 221). -/
  | skipped
  /-- No exception: the file is rewritten with the new attributes (line 236). -/
  | written (attrs : List (String × ExifVal))
  /-- A `RuntimeError` was caught (line 231): logged, `error = True`, the
  file is not rewritten, the loop continues. -/
  | errorLogged
  /-- An exception not matching `except RuntimeError` propagates out of
  `adjust_main`: the file is not rewritten and the batch dies. -/
  | uncaught (e : Exc)
deriving DecidableEq, Repr

/-- The body of the per-photo loop of `adjust_main` from the bracket scan
onward (lines 212-238), for a photo whose adjusted digitized time is
`exifDt`. -/
def processPhoto (used_dts : List ℤ) (index : ℤ → Option GPXTrackPoint)
    (wr : ExifWriter) (exifDt : ℤ) : PhotoOutcome :=
  match bracket used_dts exifDt with
  | (some b, some a) =>
    match index b, index a with
    | some pb, some pa =>
      match interpolate pb pa exifDt >>= adjust_image wr with
      | Except.ok attrs => PhotoOutcome.written attrs
      | Except.error e =>
        if e = Exc.runtimeError then PhotoOutcome.errorLogged else PhotoOutcome.uncaught e
    | _, _ => PhotoOutcome.uncaught Exc.keyError
  | _ => PhotoOutcome.skipped

/-- The photo loop of `adjust_main` over the (sorted) photo query times: an
uncaught exception aborts the whole batch; everything else continues with
the next photo. -/
def processBatch (used_dts : List ℤ) (index : ℤ → Option GPXTrackPoint)
    (wr : ExifWriter) : List ℤ → List PhotoOutcome
  | [] => []
  | dt :: rest =>
    match processPhoto used_dts index wr dt with
    | PhotoOutcome.uncaught e => [PhotoOutcome.uncaught e]
    | o => o :: processBatch used_dts index wr rest

/-! ## Helper lemmas -/

/-- If the bracket scan broke with an `after` value, that value satisfies
`q ≤ after` (it was the first element with `u >= exif_dt`). -/
theorem bracketLoop_snd_le (q : ℤ) :
    ∀ (us : List ℤ) (acc : Option ℤ) (a : ℤ),
      (bracketLoop q us acc).2 = some a → q ≤ a := by
  intro us
  induction us with
  | nil => intro acc a h; simp [bracketLoop] at h
  | cons u us ih =>
    intro acc a h
    by_cases hq : q ≤ u
    · simp only [bracketLoop, if_pos hq] at h
      cases h
      exact hq
    · simp only [bracketLoop, if_neg hq] at h
      exact ih _ a h

/-- If the bracket scan ended with a `before` value and the accumulator only
ever holds values `≤ q`, the final `before` is `≤ q`. -/
theorem bracketLoop_fst_le (q : ℤ) :
    ∀ (us : List ℤ) (acc : Option ℤ),
      (∀ t, acc = some t → t ≤ q) →
      ∀ b, (bracketLoop q us acc).1 = some b → b ≤ q := by
  intro us
  induction us with
  | nil =>
    intro acc hacc b h
    simp only [bracketLoop] at h
    exact hacc b h
  | cons u us ih =>
    intro acc hacc b h
    have hstep : ∀ t, (if u ≤ q then some u else acc) = some t → t ≤ q := by
      intro t ht
      by_cases hu : u ≤ q
      · rw [if_pos hu] at ht; cases ht; exact hu
      · rw [if_neg hu] at ht; exact hacc t ht
    by_cases hq : q ≤ u
    · simp only [bracketLoop, if_pos hq] at h
      exact hstep b h
    · simp only [bracketLoop, if_neg hq] at h
      exact ih _ hstep b h

/-- If the query strictly precedes every scanned timestamp, no `before`
candidate is ever recorded. -/
theorem bracketLoop_fst_none (q : ℤ) :
    ∀ (us : List ℤ), (∀ u ∈ us, q < u) → (bracketLoop q us none).1 = none := by
  intro us
  induction us with
  | nil => intro _; rfl
  | cons u us ih =>
    intro h
    have hu : q < u := h u (List.mem_cons_self u us)
    have hnle : ¬ u ≤ q := not_le.mpr hu
    simp only [bracketLoop, if_neg hnle, if_pos hu.le]

/-- If the query strictly follows every scanned timestamp, the scan never
breaks, so no `after` is recorded. -/
theorem bracketLoop_snd_none (q : ℤ) :
    ∀ (us : List ℤ), (∀ u ∈ us, u < q) → ∀ acc, (bracketLoop q us acc).2 = none := by
  intro us
  induction us with
  | nil => intro _ acc; rfl
  | cons u us ih =>
    intro h acc
    have hu : u < q := h u (List.mem_cons_self u us)
    simp only [bracketLoop, if_neg (not_le.mpr hu)]
    exact ih (fun x hx => h x (List.mem_cons_of_mem u hx)) _

/-- Every point retrievable from the built index is stored under its own
timestamp (`gpx_points[point.time] = (point, gpx_file)`). -/
theorem buildIndex_time (pts : List GPXTrackPoint) :
    ∀ t p, buildIndex pts t = some p → p.time = t := by
  unfold buildIndex
  suffices h : ∀ (f : ℤ → Option GPXTrackPoint),
      (∀ t p, f t = some p → p.time = t) →
      ∀ t p,
        (pts.foldl (fun idx x => fun t => if t = x.time then some x else idx t) f) t
          = some p → p.time = t by
    refine h (fun _ => none) ?_
    intro t p hc
    exact Option.noConfusion hc
  induction pts with
  | nil => intro f hf; simpa using hf
  | cons x xs ih =>
    intro f hf
    simp only [List.foldl_cons]
    refine ih _ ?_
    intro t p hc
    by_cases ht : t = x.time
    · rw [if_pos ht] at hc
      cases hc
      exact ht.symm
    · rw [if_neg ht] at hc
      exact hf t p hc

/-- Under the precondition `before.time ≤ dt ≤ after.time`, `interpolate`
never fails its assertion. -/
theorem interpolate_ne_assertion (pb pa : GPXTrackPoint) (q : ℤ)
    (h1 : pb.time ≤ q) (h2 : q ≤ pa.time) :
    interpolate pb pa q ≠ Except.error Exc.assertionError := by
  intro hcon
  unfold interpolate at hcon
  rw [if_neg (not_not_intro ⟨h1, h2⟩)] at hcon
  split at hcon
  · exact Except.noConfusion hcon
  split at hcon
  · injection hcon with h
    exact Exc.noConfusion h
  split at hcon
  · exact Except.noConfusion hcon
  split at hcon
  · exact Except.noConfusion hcon
  split at hcon
  · injection hcon with h
    exact Exc.noConfusion h
  · exact Except.noConfusion hcon

/-! ## C1 -/

/-- C1: refuted evaluation.  For the precondition-satisfying, non-identical
bracketing pair `pA` (t = 0) and `pDayAfter` (t = 86410 s, i.e. 24 h 10 s
later) and query time t = 50000 s, the code's ratio is
`(50000 mod 86400) / (86410 mod 86400) = 50000 / 10 = 5000` — far outside
[0, 1] — because `timedelta.seconds` discards whole days, so the returned
latitude is 10 + 5000·(11 − 10) = 5010 instead of the claimed
10 + (50000 / 86410)·(11 − 10). -/
theorem interpolate_seconds_truncation :
    pA ≠ pDayAfter ∧ pA.time ≤ 50000 ∧ (50000 : ℤ) ≤ pDayAfter.time ∧
    interpolate pA pDayAfter 50000 = Except.ok (mkPt 5010 5010 none 50000) ∧
    ¬ ((5010 : ℚ) = 10 + ((50000 : ℚ) / 86410) * (11 - 10)) := by
  refine ⟨by decide, by decide, by decide, ?_, by norm_num⟩
  norm_num [interpolate, pA, pDayAfter, mkPt, lerpFrac, tdSeconds, GPXTrackPoint.mk.injEq]

/-! ## C3 -/

/-- C3: refuted evaluation.  `sorted(used_dts)` on line 187 discards its
result, so the scan runs over the insertion order.  With insertion order
`[10, 30, 20]` (reachable: a lexicographically earlier GPX file holding
chronologically later points) and query 20, the scan returns
(before = 10, after = 30), while the chronological
(lastSampleAtOrBefore, firstSampleAtOrAfter) pair is (20, 20). -/
theorem bracket_unsorted_scan :
    bracket [10, 30, 20] 20 = (some 10, some 30) ∧
    lastSampleAtOrBefore [10, 30, 20] 20 = some 20 ∧
    firstSampleAtOrAfter [10, 30, 20] 20 = some 20 ∧
    (some (10 : ℤ), some (30 : ℤ)) ≠ (some (20 : ℤ), some (20 : ℤ)) := by
  refine ⟨by decide, by decide, by decide, by decide⟩

/-! ## C4 -/

/-- C4: refuted evaluation.  `pA` and `pGapAfter` are distinct samples
exactly 48 h apart; for the precondition-satisfying query at the midpoint,
the ratio denominator `(after.time - before.time).seconds` is
`172800 mod 86400 = 0`, so `interpolate` raises ZeroDivisionError even
though `before ≠ after`. -/
theorem interpolate_day_gap_div_zero :
    pA ≠ pGapAfter ∧ pA.time ≤ 43200 ∧ (43200 : ℤ) ≤ pGapAfter.time ∧
    interpolate pA pGapAfter 43200 = Except.error Exc.zeroDivisionError := by
  refine ⟨by decide, by decide, by decide, ?_⟩
  norm_num [interpolate, pA, pGapAfter, mkPt, tdSeconds]

/-! ## C2 -/

/-- C2: counterexample.  For v = 0 (a legitimate decimal-degree value —
the equator or prime meridian), `gpx_to_exif` computes `a / c = 0.0 / 0.0`
and raises ZeroDivisionError instead of returning any triple. -/
theorem gpx_to_exif_zero_raises :
    gpx_to_exif 0 = Except.error Exc.zeroDivisionError := by
  simp [gpx_to_exif]

/-- C2 (amended to v ≠ 0): `gpx_to_exif v` returns a triple whose degrees
component is `sign(v) · ⌊|v|⌋` (the floor magnitude carrying the original
sign), whose minutes and seconds components are non-negative, and whose
recombination `|degrees| + minutes/60 + seconds/3600` is at least `|v|`
(ceiling rounding never under-covers). -/
theorem gpx_to_exif_triple_spec (v : ℚ) (hv : v ≠ 0) :
    ∃ d m s : ℚ, gpx_to_exif v = Except.ok (d, m, s) ∧
      d = (if v < 0 then -1 else 1) * (⌊|v|⌋ : ℚ) ∧
      0 ≤ m ∧ 0 ≤ s ∧
      |v| ≤ |d| + m / 60 + s / 3600 := by
  have ha : (0 : ℚ) ≤ |v| := abs_nonneg v
  have hfl0 : (0 : ℚ) ≤ (⌊|v|⌋ : ℚ) := by
    exact_mod_cast Int.floor_nonneg.mpr ha
  have hfle : (⌊|v|⌋ : ℚ) ≤ |v| := Int.floor_le _
  have hm0 : (0 : ℚ) ≤ (⌊60 * (|v| - (⌊|v|⌋ : ℚ))⌋ : ℚ) := by
    have : (0 : ℚ) ≤ 60 * (|v| - (⌊|v|⌋ : ℚ)) := by nlinarith
    exact_mod_cast Int.floor_nonneg.mpr this
  have hmle : ((⌊60 * (|v| - (⌊|v|⌋ : ℚ))⌋ : ℤ) : ℚ) ≤ 60 * (|v| - (⌊|v|⌋ : ℚ)) :=
    Int.floor_le _
  have hs0 : (0 : ℚ) ≤
      (⌈3600 * (|v| - ((⌊|v|⌋ : ℚ) + (⌊60 * (|v| - (⌊|v|⌋ : ℚ))⌋ : ℚ) / 60))⌉ : ℚ) := by
    have : (0 : ℚ) ≤ 3600 * (|v| - ((⌊|v|⌋ : ℚ) + (⌊60 * (|v| - (⌊|v|⌋ : ℚ))⌋ : ℚ) / 60)) := by
      nlinarith
    exact_mod_cast Int.ceil_nonneg this
  have hsge :
      3600 * (|v| - ((⌊|v|⌋ : ℚ) + (⌊60 * (|v| - (⌊|v|⌋ : ℚ))⌋ : ℚ) / 60)) ≤
      ((⌈3600 * (|v| - ((⌊|v|⌋ : ℚ) + (⌊60 * (|v| - (⌊|v|⌋ : ℚ))⌋ : ℚ) / 60))⌉ : ℤ) : ℚ) :=
    Int.le_ceil _
  have hsign : |v| / v = if v < 0 then (-1 : ℚ) else 1 := by
    rcases hv.lt_or_lt with h | h
    · rw [abs_of_neg h, if_pos h, neg_div, div_self hv]
    · rw [abs_of_pos h, if_neg (not_lt.mpr h.le), div_self hv]
  refine ⟨(|v| / v) * (⌊|v|⌋ : ℚ), (⌊60 * (|v| - (⌊|v|⌋ : ℚ))⌋ : ℚ),
    (⌈3600 * (|v| - ((⌊|v|⌋ : ℚ) + (⌊60 * (|v| - (⌊|v|⌋ : ℚ))⌋ : ℚ) / 60))⌉ : ℚ),
    ?_, ?_, hm0, hs0, ?_⟩
  · simp [gpx_to_exif, hv]
  · rw [hsign]
  · have habs : |(|v| / v) * (⌊|v|⌋ : ℚ)| = (⌊|v|⌋ : ℚ) := by
      rw [hsign]
      rcases lt_or_le v 0 with h | h
      · rw [if_pos h, neg_one_mul, abs_neg, abs_of_nonneg hfl0]
      · rw [if_neg (not_lt.mpr h), one_mul, abs_of_nonneg hfl0]
    rw [habs]
    nlinarith

/-- C2 witness: the amended statement evaluated at v = −15.5. -/
theorem gpx_to_exif_triple_spec_witness :
    ((-31 / 2 : ℚ) ≠ 0) ∧
    (∃ d m s : ℚ, gpx_to_exif (-31 / 2) = Except.ok (d, m, s) ∧
      d = (if (-31 / 2 : ℚ) < 0 then -1 else 1) * (⌊|(-31 / 2 : ℚ)|⌋ : ℚ) ∧
      0 ≤ m ∧ 0 ≤ s ∧
      |(-31 / 2 : ℚ)| ≤ |d| + m / 60 + s / 3600) :=
  ⟨by norm_num, gpx_to_exif_triple_spec (-31 / 2) (by norm_num)⟩

/-! ## C7 -/

/-- C7: counterexample.  A latitude of exactly 0 is encoded "S", a longitude
of exactly 0 is encoded "W", and an elevation of exactly 0 gets the
below-sea-level reference −1 — the strict `> 0` comparisons put 0 on the
negative side, not the positive side the claim states. -/
theorem zero_encoded_negative_side :
    gps_latitude_ref 0 ≠ "N" ∧ gps_longitude_ref 0 ≠ "E" ∧
    gps_altitude_ref (some 0) ≠ Except.ok 0 := by
  refine ⟨by decide, by decide, by decide⟩

/-- C7 (amended: 0 goes to the negative side): the positive labels "N"/"E"
and the at/above-sea-level reference 0 are produced exactly for strictly
positive values; a value of exactly 0 yields "S", "W" and −1. -/
theorem hemisphere_altitude_ref_spec :
    (∀ v : ℚ, (gps_latitude_ref v = "N" ↔ 0 < v) ∧ (gps_longitude_ref v = "E" ↔ 0 < v)) ∧
    gps_latitude_ref 0 = "S" ∧ gps_longitude_ref 0 = "W" ∧
    (∀ e : ℚ, gps_altitude_ref (some e) = Except.ok 0 ↔ 0 < e) ∧
    gps_altitude_ref (some 0) = Except.ok (-1) := by
  refine ⟨fun v => ⟨?_, ?_⟩, by decide, by decide, fun e => ?_, by decide⟩
  · by_cases h : 0 < v
    · simp [gps_latitude_ref, h]
    · simp [gps_latitude_ref, h]
  · by_cases h : 0 < v
    · simp [gps_longitude_ref, h]
    · simp [gps_longitude_ref, h]
  · by_cases h : 0 < e
    · simp [gps_altitude_ref, h]
    · simp [gps_altitude_ref, h]

/-! ## C9 -/

/-- C9: whatever order the scan visits the indexed timestamps in, a fully
bracketing result satisfies `before.timestamp ≤ q ≤ after.timestamp` (each
side is guarded by its own comparison), so `interpolate`'s assertion cannot
fire on a pair produced by the orchestration (index lookups return points
stored under their own timestamps). -/
theorem bracket_pairs_satisfy_precondition (pts : List GPXTrackPoint) (q b a : ℤ)
    (pb pa : GPXTrackPoint)
    (hbr : bracket (usedDts pts) q = (some b, some a))
    (hib : buildIndex pts b = some pb) (hia : buildIndex pts a = some pa) :
    pb.time ≤ q ∧ q ≤ pa.time ∧
    interpolate pb pa q ≠ Except.error Exc.assertionError := by
  have htb : pb.time = b := buildIndex_time pts b pb hib
  have hta : pa.time = a := buildIndex_time pts a pa hia
  have h1 : b ≤ q :=
    bracketLoop_fst_le q (usedDts pts) none (fun t ht => Option.noConfusion ht) b
      (congrArg Prod.fst hbr)
  have h2 : q ≤ a := bracketLoop_snd_le q (usedDts pts) none a (congrArg Prod.snd hbr)
  have hb' : pb.time ≤ q := by rw [htb]; exact h1
  have ha' : q ≤ pa.time := by rw [hta]; exact h2
  exact ⟨hb', ha', interpolate_ne_assertion pb pa q hb' ha'⟩

/-- C9 witness: the theorem applied to the two-point track {pA, pB} and
query time 5. -/
theorem bracket_pairs_satisfy_precondition_witness :
    bracket (usedDts [pA, pB]) 5 = (some 0, some 10) ∧
    buildIndex [pA, pB] 0 = some pA ∧
    buildIndex [pA, pB] 10 = some pB ∧
    (pA.time ≤ 5 ∧ (5 : ℤ) ≤ pB.time ∧
     interpolate pA pB 5 ≠ Except.error Exc.assertionError) :=
  ⟨by decide, by decide, by decide,
   bracket_pairs_satisfy_precondition [pA, pB] 5 0 10 pA pB (by decide) (by decide)
     (by decide)⟩

/-! ## C10 -/

/-- C10: when the query time strictly precedes every indexed timestamp or
strictly follows every indexed timestamp, the scan leaves `before` or
`after` unset, the photo is skipped, no exception is raised, and the batch
continues with the remaining photos. -/
theorem bracket_miss_skips (ud : List ℤ) (index : ℤ → Option GPXTrackPoint)
    (wr : ExifWriter) (q : ℤ) (rest : List ℤ)
    (h : (∀ u ∈ ud, q < u) ∨ (∀ u ∈ ud, u < q)) :
    processPhoto ud index wr q = PhotoOutcome.skipped ∧
    processBatch ud index wr (q :: rest) =
      PhotoOutcome.skipped :: processBatch ud index wr rest := by
  have hmiss : (bracket ud q).1 = none ∨ (bracket ud q).2 = none := by
    rcases h with h | h
    · exact Or.inl (bracketLoop_fst_none q ud h)
    · exact Or.inr (bracketLoop_snd_none q ud h none)
  have hskip : processPhoto ud index wr q = PhotoOutcome.skipped := by
    rcases hq : bracket ud q with ⟨f, s⟩
    rw [hq] at hmiss
    unfold processPhoto
    rw [hq]
    rcases f with _ | b
    · rcases s with _ | a <;> rfl
    · rcases s with _ | a
      · rfl
      · simp at hmiss
  refine ⟨hskip, ?_⟩
  simp only [processBatch]
  rw [hskip]

/-- C10 witness: the theorem applied to the track {10 s, 20 s} and a photo
at t = 5 s, which precedes every sample. -/
theorem bracket_miss_skips_witness :
    ((∀ u ∈ ([10, 20] : List ℤ), (5 : ℤ) < u) ∨ (∀ u ∈ ([10, 20] : List ℤ), u < 5)) ∧
    (processPhoto [10, 20] (buildIndex [pA, pB]) wrOk 5 = PhotoOutcome.skipped ∧
     processBatch [10, 20] (buildIndex [pA, pB]) wrOk (5 :: [6]) =
       PhotoOutcome.skipped :: processBatch [10, 20] (buildIndex [pA, pB]) wrOk [6]) :=
  ⟨Or.inl (by decide),
   bracket_miss_skips [10, 20] (buildIndex [pA, pB]) wrOk 5 [6] (Or.inl (by decide))⟩

/-! ## C5 -/

/-- C5: counterexample.  A writer failure raised as a `ValueError` (any
class other than `RuntimeError`) is not caught by the `except RuntimeError`
handler: the batch of two photos dies on the first, and the second is never
processed — the claim's "caught, logged, processing continues" fails. -/
theorem batch_aborts_on_non_runtime_error :
    processBatch [0, 10] (buildIndex [pA, pB]) wrValue [5, 6] =
      [PhotoOutcome.uncaught Exc.valueError] := by decide

/-- C5 (amended to RuntimeError only): a pipeline failure raised as a
`RuntimeError` is caught: the photo's outcome is the logged error, the file
is not rewritten (outcome is never `written`), and the batch continues with
the remaining photos. -/
theorem runtime_error_caught_per_photo (ud : List ℤ)
    (index : ℤ → Option GPXTrackPoint) (wr : ExifWriter) (q : ℤ) (rest : List ℤ)
    (b a : ℤ) (pb pa : GPXTrackPoint)
    (hbr : bracket ud q = (some b, some a))
    (hib : index b = some pb) (hia : index a = some pa)
    (hpipe : (interpolate pb pa q >>= adjust_image wr) = Except.error Exc.runtimeError) :
    processPhoto ud index wr q = PhotoOutcome.errorLogged ∧
    (∀ attrs, processPhoto ud index wr q ≠ PhotoOutcome.written attrs) ∧
    processBatch ud index wr (q :: rest) =
      PhotoOutcome.errorLogged :: processBatch ud index wr rest := by
  have h1 : processPhoto ud index wr q = PhotoOutcome.errorLogged := by
    unfold processPhoto
    simp only [hbr, hib, hia, hpipe]
    rfl
  refine ⟨h1, fun attrs h2 => ?_, ?_⟩
  · rw [h1] at h2
    exact PhotoOutcome.noConfusion h2
  · simp only [processBatch]
    rw [h1]

/-- C5 witness: the amended statement at a concrete two-photo batch whose
writer raises RuntimeError on every `set`. -/
theorem runtime_error_caught_per_photo_witness :
    bracket [0, 10] 5 = (some 0, some 10) ∧
    buildIndex [pA, pB] 0 = some pA ∧
    buildIndex [pA, pB] 10 = some pB ∧
    (interpolate pA pB 5 >>= adjust_image wrRuntime) = Except.error Exc.runtimeError ∧
    (processPhoto [0, 10] (buildIndex [pA, pB]) wrRuntime 5 = PhotoOutcome.errorLogged ∧
     (∀ attrs, processPhoto [0, 10] (buildIndex [pA, pB]) wrRuntime 5 ≠
        PhotoOutcome.written attrs) ∧
     processBatch [0, 10] (buildIndex [pA, pB]) wrRuntime (5 :: [6]) =
       PhotoOutcome.errorLogged :: processBatch [0, 10] (buildIndex [pA, pB]) wrRuntime [6]) :=
  ⟨by decide, by decide, by decide, by decide,
   runtime_error_caught_per_photo [0, 10] (buildIndex [pA, pB]) wrRuntime 5 [6] 0 10 pA pB
     (by decide) (by decide) (by decide) (by decide)⟩

/-! ## C6 -/

/-- With an absent elevation, `adjust_image` can never complete: the
altitude-reference computation `point.elevation > 0` raises before the
remaining attributes are written (whatever the writer does earlier). -/
theorem adjust_image_elev_none_not_ok (wr : ExifWriter) (r : GPXTrackPoint)
    (hre : r.elevation = none) (attrs : List (String × ExifVal)) :
    adjust_image wr r ≠ Except.ok attrs := by
  intro hcon
  unfold adjust_image at hcon
  rw [hre] at hcon
  simp only [gps_altitude_ref] at hcon
  repeat (split at hcon <;> try exact Except.noConfusion hcon)

/-- With an absent elevation, a writer whose every `set` succeeds, and
nonzero coordinates, `adjust_image` raises exactly the TypeError of
`point.elevation > 0`. -/
theorem adjust_image_elev_none_typeError (wr : ExifWriter) (r : GPXTrackPoint)
    (hre : r.elevation = none) (hwr : ∀ tag v, wr tag v = none)
    (hlat : r.latitude ≠ 0) (hlon : r.longitude ≠ 0) :
    adjust_image wr r = Except.error Exc.typeError := by
  unfold adjust_image
  simp [imgSet, hwr, hre, gps_altitude_ref, gpx_to_exif, hlat, hlon]

/-- `interpolate` itself never raises a TypeError because of an absent
`before.elevation`, and an absent `before.elevation` propagates as an
absent result elevation. -/
theorem interpolate_elev_none_cases (pb pa : GPXTrackPoint) (dt : ℤ)
    (hbe : pb.elevation = none) :
    interpolate pb pa dt ≠ Except.error Exc.typeError ∧
    ∀ r, interpolate pb pa dt = Except.ok r → r.elevation = none := by
  constructor
  · intro hcon
    simp only [interpolate] at hcon
    rw [hbe] at hcon
    split at hcon
    · injection hcon with h
      exact Exc.noConfusion h
    split at hcon
    · exact Except.noConfusion hcon
    split at hcon
    · injection hcon with h
      exact Exc.noConfusion h
    · exact Except.noConfusion hcon
  · intro r hok
    simp only [interpolate] at hok
    rw [hbe] at hok
    split at hok
    · exact Except.noConfusion hok
    split at hok
    · rename_i hpeq
      injection hok with h
      rw [← h, hbe]
    split at hok
    · exact Except.noConfusion hok
    · injection hok with h
      rw [← h]

/-- C6 (amended): an absent elevation is a valid no-data state for the
Interpolator — it propagates to an absent result elevation and raises
nothing there — but the attribute-encoding step can never complete for a
position with absent elevation: `adjust_image` raises a TypeError at the
altitude-reference computation (uncatchable by the RuntimeError handler),
so the per-photo pipeline does error. -/
theorem absent_elevation_rule (wr : ExifWriter) (pb pa : GPXTrackPoint) (dt : ℤ)
    (hbe : pb.elevation = none) :
    interpolate pb pa dt ≠ Except.error Exc.typeError ∧
    ∀ r, interpolate pb pa dt = Except.ok r →
      r.elevation = none ∧
      (∀ attrs, adjust_image wr r ≠ Except.ok attrs) ∧
      ((∀ tag v, wr tag v = none) → r.latitude ≠ 0 → r.longitude ≠ 0 →
        adjust_image wr r = Except.error Exc.typeError) := by
  obtain ⟨hne, hok⟩ := interpolate_elev_none_cases pb pa dt hbe
  refine ⟨hne, fun r hr => ?_⟩
  have hre := hok r hr
  exact ⟨hre, fun attrs => adjust_image_elev_none_not_ok wr r hre attrs,
    fun hwr hlat hlon => adjust_image_elev_none_typeError wr r hre hwr hlat hlon⟩

/-- C6 witness: the amended statement at the concrete pair (pA, pB) with the
all-succeeding writer. -/
theorem absent_elevation_rule_witness :
    pA.elevation = none ∧
    (interpolate pA pB 5 ≠ Except.error Exc.typeError ∧
     ∀ r, interpolate pA pB 5 = Except.ok r →
       r.elevation = none ∧
       (∀ attrs, adjust_image wrOk r ≠ Except.ok attrs) ∧
       ((∀ tag v, wrOk tag v = none) → r.latitude ≠ 0 → r.longitude ≠ 0 →
         adjust_image wrOk r = Except.error Exc.typeError)) :=
  ⟨rfl, absent_elevation_rule wrOk pA pB 5 rfl⟩

/-- C6: counterexample.  The sample `pA` has no elevation; interpolating at
its own timestamp returns it unchanged, yet the attribute-encoding step
raises a TypeError (`None > 0`), so the per-photo pipeline does raise an
error for an absent elevation, and it is not even caught (TypeError is not
RuntimeError). -/
theorem absent_elevation_encoding_raises :
    pA.elevation = none ∧
    interpolate pA pA 0 = Except.ok pA ∧
    (interpolate pA pA 0 >>= adjust_image wrOk) = Except.error Exc.typeError ∧
    processPhoto (usedDts [pA, pB]) (buildIndex [pA, pB]) wrOk 0 =
      PhotoOutcome.uncaught Exc.typeError := by decide

/-! ## C8 -/

/-- C8: counterexample.  `pE1` (elevation 100) and `pB` (no elevation) form
a precondition-satisfying, non-identical bracketing pair, but instead of
returning a sample with interpolated (or any) elevation, `interpolate`
raises a TypeError evaluating `after.elevation - before.elevation`. -/
theorem interpolate_after_elevation_none_raises :
    pE1.time ≤ 5 ∧ (5 : ℤ) ≤ pB.time ∧ pE1 ≠ pB ∧
    pE1.elevation = some 100 ∧ (100 : ℚ) ≠ 0 ∧ pB.elevation = none ∧
    interpolate pE1 pB 5 = Except.error Exc.typeError := by decide

/-- C8 (amended): for a non-identical pair whose interpolation returns a
sample, an absent or exactly-zero `before.elevation` yields an absent
result elevation, and a present nonzero `before.elevation` together with a
present `after.elevation` yields the linear interpolation at the same ratio
as latitude and longitude; when `before.elevation` is present and nonzero
but `after.elevation` is absent, `interpolate` raises a TypeError instead
of returning a sample. -/
theorem interpolate_elevation_rule (pb pa : GPXTrackPoint) (dt : ℤ) (hne : pb ≠ pa) :
    (∀ r, interpolate pb pa dt = Except.ok r →
      ((pb.elevation = none ∨ pb.elevation = some 0) → r.elevation = none) ∧
      (∀ be ae, pb.elevation = some be → be ≠ 0 → pa.elevation = some ae →
        r.elevation = some (be + lerpFrac pb pa dt * (ae - be)))) ∧
    (∀ be, pb.elevation = some be → be ≠ 0 → pa.elevation = none →
      pb.time ≤ dt → dt ≤ pa.time → tdSeconds (pa.time - pb.time) ≠ 0 →
      interpolate pb pa dt = Except.error Exc.typeError) := by
  constructor
  · intro r hok
    simp only [interpolate] at hok
    split at hok
    · exact Except.noConfusion hok
    split at hok
    · exact Except.noConfusion hok
    split at hok
    · rename_i hbe0
      injection hok with h
      constructor
      · intro _
        rw [← h]
      · intro be ae hbe _ _
        rw [hbe0] at hbe
        exact Option.noConfusion hbe
    · rename_i be0 hbe0
      split at hok
      · rename_i hz
        injection hok with h
        constructor
        · intro _
          rw [← h]
        · intro be ae hbe hbz _
          rw [hbe0] at hbe
          injection hbe with hbe
          rw [← hbe] at hbz
          exact absurd hz hbz
      · rename_i hz
        split at hok
        · exact Except.noConfusion hok
        · rename_i ae0 hae0
          injection hok with h
          constructor
          · intro hcase
            rcases hcase with hcase | hcase
            · rw [hbe0] at hcase
              exact Option.noConfusion hcase
            · rw [hbe0] at hcase
              injection hcase with hcase
              exact absurd hcase hz
          · intro be ae hbe hbz hae
            rw [hbe0] at hbe
            injection hbe with hbe
            rw [hae0] at hae
            injection hae with hae
            rw [← h, ← hbe, ← hae]
  · intro be hbe hbz hae h1 h2 hden
    have hpre : ¬¬(pb.time ≤ dt ∧ dt ≤ pa.time) := not_not_intro ⟨h1, h2⟩
    simp only [interpolate, if_neg hpre, if_neg hne, if_neg hden, hbe, hae, if_neg hbz]

/-- C8 witness: the amended statement at the concrete pair (pE1, pE2)
with elevations 100 and 200. -/
theorem interpolate_elevation_rule_witness :
    pE1 ≠ pE2 ∧
    ((∀ r, interpolate pE1 pE2 5 = Except.ok r →
      ((pE1.elevation = none ∨ pE1.elevation = some 0) → r.elevation = none) ∧
      (∀ be ae, pE1.elevation = some be → be ≠ 0 → pE2.elevation = some ae →
        r.elevation = some (be + lerpFrac pE1 pE2 5 * (ae - be)))) ∧
    (∀ be, pE1.elevation = some be → be ≠ 0 → pE2.elevation = none →
      pE1.time ≤ 5 → (5 : ℤ) ≤ pE2.time → tdSeconds (pE2.time - pE1.time) ≠ 0 →
      interpolate pE1 pE2 5 = Except.error Exc.typeError)) :=
  ⟨by decide, interpolate_elevation_rule pE1 pE2 5 (by decide)⟩
